import Mathlib

/-!
A shallow embedding of the service layer of the API-REST-IA repository
(`app/services/db_service.py`, `app/services/pedido_service.py`,
`app/services/ai_service.py`, `app/routers/db_router.py`, `app/exceptions.py`),
together with theorems settling the behavioural claims about it.

Conventions of the embedding:
* PostgreSQL is an external collaborator; its observable behaviour is an
  oracle value of type `Catalog` (reachable database) or `none` (unreachable).
* Python exceptions of `app/exceptions.py` become the inductive `DBError`;
  an operation that can raise returns `Except DBError α` (or `Except String α`
  where arbitrary Python exceptions can escape, carrying `str(e)`).
* Python dictionaries parsed from JSON become the inductive `Json`; the
  Python operations `d.get(k, v)`, `d[k]`, `k in d` and truthiness are
  embedded by `pyGet`, `pyIdx`, `hasKey` and `truthy`.
* Machine strings are Lean `String`s; the case/strip reasoning of
  `_is_safe_query` is carried out on `List Char`.
-/

namespace ApiRestIA

/-- One single quote character, used inside Python error message literals. -/
def sq : String := String.singleton (Char.ofNat 39)

/-! ## `app/exceptions.py` -/

/-- The exception hierarchy of `app/exceptions.py`. Every constructor stores
the arguments of the corresponding Python `__init__`. -/
inductive DBError where
  | databaseError (message : String)
  | tableNotFoundError (table_name : String)
  | queryError (query : String) (error : String)
  | connectionError (error : String)
  | validationError (message : String)
deriving DecidableEq

/-- The `self.message` value as set by each `__init__` (also `str(e)` for these classes). -/
def DBError.message : DBError → String
  | .databaseError m => m
  | .tableNotFoundError t => "La tabla " ++ sq ++ t ++ sq ++ " no existe"
  | .queryError _ e => "Error al ejecutar la consulta: " ++ e
  | .connectionError e => "Error de conexión a la base de datos: " ++ e
  | .validationError m => m

/-- The `self.code` value as set by each `__init__`. -/
def DBError.code : DBError → Nat
  | .databaseError _ => 500
  | .tableNotFoundError _ => 404
  | .queryError _ _ => 400
  | .connectionError _ => 503
  | .validationError _ => 400

/-- True exactly on results that are a raised `ValidationError`. -/
def isValidationFailure : Except DBError α → Bool
  | .error (.validationError _) => true
  | _ => false

/-- True exactly on results that are a raised `ConnectionError`. -/
def isConnectionFailure : Except DBError α → Bool
  | .error (.connectionError _) => true
  | _ => false

/-! ## Python string primitives used by `db_service.py` -/

/-- The whitespace characters removed by Python `str.strip()` (ASCII range). -/
def pyWhitespace (c : Char) : Bool :=
  c == ' ' || c == '\t' || c == '\n' || c == '\r' || c == '\x0b' || c == '\x0c'

/-- Python `str.lower()` on the character list of a string (ASCII case). -/
def lowerChars (s : String) : List Char :=
  s.data.map Char.toLower

/-- Python `str.strip()` on a character list. -/
def pyStrip (l : List Char) : List Char :=
  (((l.dropWhile pyWhitespace).reverse.dropWhile pyWhitespace)).reverse

/-- Python `query.lower().strip()` as used throughout `execute_query`. -/
def lowerStrip (s : String) : List Char :=
  pyStrip (lowerChars s)

/-- Python substring containment `needle in hay` on character lists. -/
def containsSub (needle : List Char) : List Char → Bool
  | [] => needle.isEmpty
  | c :: rest => needle.isPrefixOf (c :: rest) || containsSub needle rest

/-- The deny list of `DatabaseService._is_safe_query`
(`db_service.py`, `dangerous_keywords`). -/
def dangerous_keywords : List (List Char) :=
  ["drop database", "drop schema", "alter database",
   "alter schema", "create database", "create schema",
   "drop role", "create role", "grant all", "revoke all"].map String.toList

/-- Embeds `DatabaseService._is_safe_query`: lowercase and strip the query, then
reject it exactly when it contains one of the deny-listed phrases. -/
def is_safe_query (query : String) : Bool :=
  let query_lower := lowerStrip query
  !(dangerous_keywords.any fun keyword => containsSub keyword query_lower)

/-- The operation prefixes that trigger the table-discovery bookkeeping of
`execute_query` (`['alter table', 'drop table', 'rename table']`). -/
def mod_ops : List (List Char) :=
  ["alter table", "drop table", "rename table"].map String.toList

/-- Python `any(query.lower().strip().startswith(op) for op in [...])`. -/
def is_mod_query (query : String) : Bool :=
  mod_ops.any fun op => op.isPrefixOf (lowerStrip query)

/-! ## JSON values and the Python dictionary operations on them -/

/-- A JSON value, as produced by `response.json()` / `json.loads`. -/
inductive Json where
  | null
  | bool (b : Bool)
  | num (n : Int)
  | str (s : String)
  | arr (elems : List Json)
  | obj (fields : List (String × Json))

/-- Python dictionary lookup `d.get(key, default)`; raises (`AttributeError`)
when the receiver is not a dictionary. -/
def pyGet (j : Json) (key : String) (dflt : Json) : Except String Json :=
  match j with
  | .obj fs => .ok (((fs.find? fun kv => kv.1 == key).map fun kv => kv.2).getD dflt)
  | _ => .error ("AttributeError: get on non-dict for key " ++ key)

/-- Python subscript `d[key]`; `KeyError` when the key is absent,
`TypeError` when the receiver is not a dictionary. -/
def pyIdx (j : Json) (key : String) : Except String Json :=
  match j with
  | .obj fs =>
    match fs.find? fun kv => kv.1 == key with
    | some kv => .ok kv.2
    | none => .error ("KeyError: " ++ key)
  | _ => .error ("TypeError: not subscriptable at key " ++ key)

/-- Python subscript `l[0]`. -/
def pyIdx0 (j : Json) : Except String Json :=
  match j with
  | .arr (x :: _) => .ok x
  | .arr [] => .error "IndexError: list index out of range"
  | _ => .error "TypeError: object is not subscriptable"

/-- Python membership test `key in d` for dictionaries. -/
def hasKey (j : Json) (key : String) : Bool :=
  match j with
  | .obj fs => fs.any fun kv => kv.1 == key
  | _ => false

/-- Python truthiness of a JSON value (`bool(v)`). -/
def truthy : Json → Bool
  | .null => false
  | .bool b => b
  | .num n => n != 0
  | .str s => !s.isEmpty
  | .arr l => !l.isEmpty
  | .obj fs => !fs.isEmpty

/-- Total dictionary lookup used by the modelled dispatcher
(`parameters` is a mapping; an absent key yields `none`). -/
def jGet (j : Json) (key : String) : Option Json :=
  match j with
  | .obj fs => (fs.find? fun kv => kv.1 == key).map fun kv => kv.2
  | _ => none

/-- Lookup of an optional string-valued parameter. -/
def jGetStr (j : Json) (key : String) : Option String :=
  match jGet j key with
  | some (.str s) => some s
  | _ => none

/-- Lookup of an optional integer-valued parameter. -/
def jGetInt (j : Json) (key : String) : Option Int :=
  match jGet j key with
  | some (.num n) => some n
  | _ => none

/-- Python dict comprehension dropping one key, as in the tool loop. -/
def jRemove (j : Json) (key : String) : Json :=
  match j with
  | .obj fs => .obj (fs.filter fun kv => !(kv.1 == key))
  | _ => j

/-- Python `str()` as applied inside f-string interpolation of a decoded JSON
scalar. Containers are abbreviated: no definition in this development applies
`jsonText` to an array or object. -/
def jsonText : Json → String
  | .str s => s
  | .num n => toString n
  | .bool b => if b then "True" else "False"
  | .null => "None"
  | .arr _ => "[...]"
  | .obj _ => "\x7b...\x7d"

/-- Python iteration over a decoded JSON value; `TypeError` when not a list. -/
def asList : Json → Except String (List Json)
  | .arr l => .ok l
  | _ => .error "TypeError: object is not iterable"

/-! ## `app/services/db_service.py`: the database access layer -/

/-- A cell value returned by the database driver. -/
inductive SqlValue where
  | str (s : String)
  | int (n : Int)
  | datetime (iso : String)
  | null
deriving DecidableEq

/-- Embeds `DatabaseService._format_results`: make rows JSON-serialisable by
rendering every datetime value as its ISO string. -/
def format_results (results : List (List (String × SqlValue))) :
    List (List (String × SqlValue)) :=
  results.map fun row => row.map fun kv =>
    match kv.2 with
    | .datetime d => (kv.1, .str d)
    | v => (kv.1, v)

/-- One row of `information_schema.columns` as read by the service. -/
structure ColumnInfo where
  column_name : String
  data_type : String
  character_maximum_length : Option Int
  is_nullable : String
  column_default : Option String
deriving DecidableEq

/-- The observable behaviour of the PostgreSQL instance reachable through a
connection: the public-schema catalog and the driver-level execution of SQL
text. `execQuery` returns the fetched rows and `cur.rowcount`, or the text of
the database error it raises; `commitResult` is the error text raised by
`conn.commit()`, if any. -/
structure Catalog where
  tables : List String
  tableType : String → String
  columnsOf : String → List ColumnInfo
  constraintsOf : String → List (String × String)
  execQuery : String → Except String (List (List (String × SqlValue)) × Int)
  commitResult : Option String
  countOf : String → Int

/-- Embeds `DatabaseService._get_connection`: connect, or wrap the driver failure
`errText` in a `ConnectionError`. `db = none` models an unreachable store. -/
def get_connection (db : Option Catalog) (errText : String) :
    Except DBError Catalog :=
  match db with
  | some c => .ok c
  | none => .error (.connectionError ("Error al conectar a la base de datos: " ++ errText))

/-- Payload of `DatabaseService.list_tables`. -/
structure TablesPayload where
  status : String
  tables : List String
deriving DecidableEq

/-- Embeds `DatabaseService.list_tables`: list the public-schema tables; any
exception (including the `ConnectionError` of `_get_connection`) is caught
and re-raised as a generic `DatabaseError`. -/
def list_tables (db : Option Catalog) (errText : String) :
    Except DBError TablesPayload :=
  match get_connection db errText with
  | .ok c => .ok { status := "success", tables := c.tables }
  | .error e => .error (.databaseError ("Error al listar tablas: " ++ e.message))

/-- Embeds `DatabaseService._table_exists`: probe the catalog for a table name;
non-`TableNotFound` failures are wrapped as `DatabaseError`. -/
def table_exists (db : Option Catalog) (errText : String) (table_name : String) :
    Except DBError Bool :=
  match get_connection db errText with
  | .ok c => .ok (c.tables.contains table_name)
  | .error e =>
    .error (.databaseError ("Error al verificar existencia de la tabla: " ++ e.message))

/-- One column record of the `get_table_structure` payload. -/
structure ColumnRecord where
  name : String
  type : String
  max_length : Option Int
  nullable : String
  default : Option String
deriving DecidableEq

/-- Payload of `DatabaseService.get_table_structure`. -/
structure StructurePayload where
  status : String
  table : String
  columns : List ColumnRecord
deriving DecidableEq

/-- Embeds `DatabaseService.get_table_structure`: `TableNotFoundError` when the
table is absent, otherwise project the catalog columns; other failures are
wrapped as `DatabaseError`. -/
def get_table_structure (db : Option Catalog) (errText : String)
    (table_name : String) : Except DBError StructurePayload :=
  match table_exists db errText table_name with
  | .error e =>
    .error (.databaseError ("Error al obtener estructura de la tabla: " ++ e.message))
  | .ok false => .error (.tableNotFoundError table_name)
  | .ok true =>
    match get_connection db errText with
    | .error e =>
      .error (.databaseError ("Error al obtener estructura de la tabla: " ++ e.message))
    | .ok c =>
      .ok { status := "success", table := table_name,
            columns := (c.columnsOf table_name).map fun ci =>
              { name := ci.column_name, type := ci.data_type,
                max_length := ci.character_maximum_length,
                nullable := ci.is_nullable, default := ci.column_default } }

/-- The SQL text interpolated by `get_table_content` (table name, optional
`ORDER BY`, `LIMIT`, `OFFSET`). Mirrors Python truthiness of `order_by` and
`order_direction` and the `is not None` tests on `limit`/`offset`. -/
def build_content_query (table_name : String) (limit offset : Option Int)
    (order_by order_direction : Option String) : String :=
  let query := "SELECT * FROM " ++ table_name
  let query :=
    match order_by with
    | some ob =>
      if ob.isEmpty then query
      else
        let direction :=
          match order_direction with
          | some od => if !od.isEmpty && (od.map Char.toUpper) == "DESC" then "DESC" else "ASC"
          | none => "ASC"
        query ++ " ORDER BY " ++ ob ++ " " ++ direction
    | none => query
  let query :=
    match limit with
    | some l => query ++ " LIMIT " ++ toString l
    | none => query
  match offset with
  | some o => query ++ " OFFSET " ++ toString o
  | none => query

/-- Payload of `DatabaseService.get_table_content`. -/
structure ContentPayload where
  status : String
  table : String
  columns : List String
  data : List (List (String × SqlValue))
  total : Int
  limit : Option Int
  offset : Option Int
deriving DecidableEq

/-- Embeds `DatabaseService.get_table_content`: `TableNotFoundError` when the table
is absent from the public schema; otherwise interpolate and run the content
query; other failures are wrapped as `DatabaseError`. -/
def get_table_content (db : Option Catalog) (errText : String)
    (table_name : String) (limit offset : Option Int)
    (order_by order_direction : Option String) : Except DBError ContentPayload :=
  match table_exists db errText table_name with
  | .error e =>
    .error (.databaseError ("Error al obtener contenido de la tabla: " ++ e.message))
  | .ok false => .error (.tableNotFoundError table_name)
  | .ok true =>
    match get_connection db errText with
    | .error e =>
      .error (.databaseError ("Error al obtener contenido de la tabla: " ++ e.message))
    | .ok c =>
      match c.execQuery (build_content_query table_name limit offset order_by order_direction) with
      | .error t =>
        .error (.databaseError ("Error al obtener contenido de la tabla: " ++ t))
      | .ok (rows, _) =>
        .ok { status := "success", table := table_name,
              columns := (c.columnsOf table_name).map fun ci => ci.column_name,
              data := format_results rows,
              total := c.countOf table_name,
              limit := limit, offset := offset }

/-- One entry of the `discover_tables` payload. -/
structure DetailedTable where
  name : String
  type : String
  column_count : Nat
  constraint_count : Nat
  columns : List ColumnInfo
  constraints : List (String × String)
deriving DecidableEq

/-- Payload of `DatabaseService.discover_tables`. -/
structure DiscoverPayload where
  tables : List DetailedTable
  total_tables : Nat
deriving DecidableEq

/-- Embeds `DatabaseService.discover_tables`: enumerate public tables with their
columns and constraints; failures are wrapped as `DatabaseError`. -/
def discover_tables (db : Option Catalog) (errText : String) :
    Except DBError DiscoverPayload :=
  match get_connection db errText with
  | .error e => .error (.databaseError ("Error al descubrir tablas: " ++ e.message))
  | .ok c =>
    let detailed := c.tables.map fun t =>
      { name := t, type := c.tableType t,
        column_count := (c.columnsOf t).length,
        constraint_count := (c.constraintsOf t).length,
        columns := c.columnsOf t,
        constraints := c.constraintsOf t : DetailedTable }
    .ok { tables := detailed, total_tables := detailed.length }

/-- The `ValidationError` message raised for a deny-listed statement. -/
def unsafe_query_message : String :=
  "La consulta no está permitida por razones de seguridad. " ++
  "Solo se permiten operaciones CRUD básicas (SELECT, INSERT, UPDATE, DELETE, CREATE TABLE, ALTER TABLE)."

/-- A Python exception in flight inside `execute_query`: either one of the
`app.exceptions` classes or any other exception, carrying `str(e)`. -/
inductive PyExc where
  | dbError (e : DBError)
  | other (text : String)
deriving DecidableEq

/-- Python `str(e)` of an in-flight exception. -/
def PyExc.text : PyExc → String
  | .dbError e => e.message
  | .other t => t

/-- Payload of `DatabaseService.execute_query`. -/
inductive QueryPayload where
  | selectResults (results : List (List (String × SqlValue)))
  | modified (message : String) (affected_rows : Int)
  | modifiedChanged (message : String) (affected_rows : Int)
      (tables_before tables_after : DiscoverPayload)
deriving DecidableEq

/-- The body of the outer `try` of `DatabaseService.execute_query`: safety
check, optional pre-discovery, driver execution, commit, optional
post-discovery. Every raised exception is propagated to the outer handler. -/
def execute_query_inner (db : Option Catalog) (errText : String)
    (query : String) : Except PyExc QueryPayload :=
  if !(is_safe_query query) then
    .error (.dbError (.validationError unsafe_query_message))
  else
    match (if is_mod_query query
           then (discover_tables db errText).map some
           else .ok none) with
    | .error e => .error (.dbError e)
    | .ok tables_before =>
      match get_connection db errText with
      | .error e => .error (.dbError e)
      | .ok c =>
        match c.execQuery query with
        | .error t => .error (.other t)
        | .ok (rows, rowcount) =>
          if ("select".toList).isPrefixOf (lowerStrip query) then
            .ok (.selectResults (format_results rows))
          else
            match c.commitResult with
            | some cerr =>
              .error (.dbError (.databaseError ("Error al guardar los cambios: " ++ cerr)))
            | none =>
              if is_mod_query query then
                match discover_tables db errText with
                | .error e =>
                  .error (.dbError (.databaseError ("Error al guardar los cambios: " ++ e.message)))
                | .ok tables_after =>
                  match tables_before with
                  | some tb =>
                    if tables_after.tables.length ≠ tb.tables.length then
                      .ok (.modifiedChanged
                        "Operación completada. Se detectaron cambios en la estructura de las tablas."
                        rowcount tb tables_after)
                    else .ok (.modified "Operación ejecutada correctamente" rowcount)
                  | none => .ok (.modified "Operación ejecutada correctamente" rowcount)
              else .ok (.modified "Operación ejecutada correctamente" rowcount)

/-- Embeds `DatabaseService.execute_query`: the outer handler rolls the transaction
back and re-raises every exception as `QueryError(query, str(e))`. -/
def execute_query (db : Option Catalog) (errText : String) (query : String) :
    Except DBError QueryPayload :=
  match execute_query_inner db errText query with
  | .ok r => .ok r
  | .error e => .error (.queryError query e.text)

/-! ## `app/routers/db_router.py` -/

/-- A FastAPI `HTTPException(status_code, detail)`. -/
structure HTTPFailure where
  status_code : Nat
  detail : String
deriving DecidableEq

/-- The handler of `GET /api/db/tables/(table_name)`: `TableNotFoundError`
maps to 404 with the exception message, any other `DatabaseError` to its own
code and message. -/
def route_get_table_content (db : Option Catalog) (errText : String)
    (table_name : String) (limit offset : Option Int)
    (order_by order_direction : Option String) :
    Except HTTPFailure ContentPayload :=
  match get_table_content db errText table_name limit offset order_by order_direction with
  | .ok r => .ok r
  | .error (.tableNotFoundError t) =>
    .error { status_code := 404, detail := (DBError.tableNotFoundError t).message }
  | .error e => .error { status_code := e.code, detail := e.message }

/-! ## The Command Dispatcher (`execute_mcp_command`) -/

/-- The result of one dispatched action. -/
inductive MCPResult where
  | tablesR (r : TablesPayload)
  | structR (r : StructurePayload)
  | queryR (r : QueryPayload)
  | contentR (r : ContentPayload)
deriving DecidableEq

/-- Modelled from the spec: `MCPService.execute_mcp_command` is invoked by
`AIService.process_chat` and by the `/mcp` endpoint of `app/main.py`, but its
definition is not present under `src/` (the `MCPService` class there only
defines `execute_command` and `get_help`). Following spec section 4.3, the
dispatcher maps exactly the four action names to Database Access Layer calls
(`describe_table` to `get_table_structure`), fails with a `ValidationError`
naming the missing required parameter (`table_name` for
`describe_table`/`get_table_content`, `query` for `execute_query`) or the
invalid action name, and passes Database Access Layer failures through
unchanged. -/
def execute_mcp_command (db : Option Catalog) (errText : String)
    (action : String) (params : Json) : Except DBError MCPResult :=
  if action == "list_tables" then
    (list_tables db errText).map MCPResult.tablesR
  else if action == "describe_table" then
    match jGet params "table_name" with
    | some (.str t) => (get_table_structure db errText t).map MCPResult.structR
    | _ => .error (.validationError "Missing required parameter: table_name")
  else if action == "execute_query" then
    match jGet params "query" with
    | some (.str q) => (execute_query db errText q).map MCPResult.queryR
    | _ => .error (.validationError "Missing required parameter: query")
  else if action == "get_table_content" then
    match jGet params "table_name" with
    | some (.str t) =>
      (get_table_content db errText t (jGetInt params "limit") (jGetInt params "offset")
        (jGetStr params "order_by") (jGetStr params "order_direction")).map MCPResult.contentR
    | _ => .error (.validationError "Missing required parameter: table_name")
  else .error (.validationError ("Invalid action: " ++ action))

/-! ## `app/services/ai_service.py`: the chat orchestrator -/

/-- Token-detail block built by `_process_openrouter_response`. -/
structure ORTokenDetails where
  cached_tokens : Json
  reasoning_tokens : Json
  total_tokens : Json

/-- Usage block built by `_process_openrouter_response`. -/
structure ORUsage where
  prompt_tokens : Json
  completion_tokens : Json
  total_tokens : Json
  prompt_tokens_details : Option ORTokenDetails
  completion_tokens_details : Option ORTokenDetails

/-- The outcome recorded for one tool call. -/
inductive ToolOutcome where
  | success (r : MCPResult)
  | failure (message : String)

/-- One entry of the `tool_results` list (`{"tool_call_id": ..., "result"|"error": ...}`). -/
structure ToolEntry where
  tool_call_id : Json
  outcome : ToolOutcome

/-- The dictionary returned by `process_chat` / `_process_openrouter_response`. -/
structure ChatPayload where
  content : Json
  model : Json
  usage : ORUsage
  tool_results : Option (List ToolEntry)

/-- The `{"cached_tokens": d.get(...), ...}` literal of
`_process_openrouter_response`, built for a truthy details dictionary. -/
def build_token_details (d : Json) : Except String ORTokenDetails :=
  match pyGet d "cached_tokens" (.num 0) with
  | .error e => .error e
  | .ok a =>
    match pyGet d "reasoning_tokens" (.num 0) with
    | .error e => .error e
    | .ok b =>
      match pyGet d "total_tokens" (.num 0) with
      | .error e => .error e
      | .ok c => .ok { cached_tokens := a, reasoning_tokens := b, total_tokens := c }

/-- Embeds `AIService._process_openrouter_response`: adapt an upstream payload to the
local response shape, defaulting absent token counts to 0 and dropping falsy
(absent or empty) token-detail dictionaries. -/
def process_openrouter_response (model_name : String) (response : Json) :
    Except String ChatPayload :=
  match pyGet response "choices" (.arr [.obj []]) with
  | .error e => .error e
  | .ok choices =>
  match pyIdx0 choices with
  | .error e => .error e
  | .ok first =>
  match pyGet first "message" (.obj []) with
  | .error e => .error e
  | .ok model_response =>
  match pyGet model_response "content" (.str "") with
  | .error e => .error e
  | .ok content =>
  match pyGet response "usage" (.obj []) with
  | .error e => .error e
  | .ok usage_data =>
  match pyGet usage_data "prompt_tokens_details" (.obj []) with
  | .error e => .error e
  | .ok prompt_details =>
  match pyGet usage_data "completion_tokens_details" (.obj []) with
  | .error e => .error e
  | .ok completion_details =>
  match pyGet usage_data "prompt_tokens" (.num 0) with
  | .error e => .error e
  | .ok pt =>
  match pyGet usage_data "completion_tokens" (.num 0) with
  | .error e => .error e
  | .ok ct =>
  match pyGet usage_data "total_tokens" (.num 0) with
  | .error e => .error e
  | .ok tt =>
  match (if truthy prompt_details
         then (build_token_details prompt_details).map some
         else .ok none) with
  | .error e => .error e
  | .ok pd =>
  match (if truthy completion_details
         then (build_token_details completion_details).map some
         else .ok none) with
  | .error e => .error e
  | .ok cd =>
  match pyGet response "model" (.str model_name) with
  | .error e => .error e
  | .ok mdl =>
    .ok { content := content, model := mdl,
          usage := { prompt_tokens := pt, completion_tokens := ct, total_tokens := tt,
                     prompt_tokens_details := pd, completion_tokens_details := cd },
          tool_results := none }

/-- An upstream HTTP response as observed by `process_chat` (`httpx`). -/
structure HttpResp where
  status_code : Nat
  text : String
  body : Json

/-- The fixed collaborators of `AIService.process_chat`: the database oracle,
the configured model name, and the external `json.loads`. -/
structure AIEnv where
  db : Option Catalog
  dbErrText : String
  model_name : String
  decode : String → Except String Json

/-- Embeds `data["choices"][0]["message"]`. -/
def first_message (body : Json) : Except String Json :=
  match pyIdx body "choices" with
  | .error e => .error e
  | .ok choices =>
    match pyIdx0 choices with
    | .error e => .error e
    | .ok first => pyIdx first "message"

/-- Embeds `tool_call["function"]["arguments"]`, decoding a text-encoded payload with
`json.loads` and accepting an already-structured one as is. -/
def tool_call_args (env : AIEnv) (tc : Json) : Except String Json :=
  match pyIdx tc "function" with
  | .error e => .error e
  | .ok fn =>
    match pyIdx fn "arguments" with
    | .error e => .error e
    | .ok args =>
      match args with
      | .str s => env.decode s
      | _ => .ok args

/-- The computation inside the per-tool-call `try`: obtain the arguments,
extract `args["action"]`, and dispatch the remaining arguments. -/
def tool_call_outcome (env : AIEnv) (tc : Json) : Except PyExc MCPResult :=
  match tool_call_args env tc with
  | .error t => .error (.other t)
  | .ok args =>
    match pyIdx args "action" with
    | .error t => .error (.other t)
    | .ok av =>
      match execute_mcp_command env.db env.dbErrText (jsonText av) (jRemove args "action") with
      | .ok r => .ok r
      | .error e => .error (.dbError e)

/-- How the two `except` clauses of the tool loop render a caught exception:
the `app.exceptions` classes contribute `str(e)`, anything else is prefixed
`Error inesperado: `. -/
def renderToolFailure : PyExc → String
  | .dbError e => e.message
  | .other t => "Error inesperado: " ++ t

/-- The `tool_results` entry produced for one directive, given that the
directive carries an `id`. -/
def entry_of (env : AIEnv) (tc : Json) : ToolEntry :=
  match pyIdx tc "id" with
  | .error _ => { tool_call_id := .null, outcome := .failure "" }
  | .ok idv =>
    match tool_call_outcome env tc with
    | .ok r => { tool_call_id := idv, outcome := .success r }
    | .error e => { tool_call_id := idv, outcome := .failure (renderToolFailure e) }

/-- One iteration of the tool loop: a failure of the dispatched call is
caught and recorded in place, but a directive without an `id` raises out of
the handler itself and aborts the whole request. -/
def run_tool_call (env : AIEnv) (tc : Json) : Except String ToolEntry :=
  match pyIdx tc "id" with
  | .error e => .error e
  | .ok _ => .ok (entry_of env tc)

/-- Embeds `AIService.process_chat`, with the two upstream submissions observed as
`resp1` and `resp2`: check the first status, extract the message, either
return the adapted payload directly or run every tool-call directive, check
the second status, and return the adapted second payload with `tool_results`
attached. -/
def process_chat (env : AIEnv) (resp1 resp2 : HttpResp) :
    Except String ChatPayload :=
  if resp1.status_code ≠ 200 then .error ("Error en la API: " ++ resp1.text)
  else
    match first_message resp1.body with
    | .error e => .error e
    | .ok message =>
      if hasKey message "tool_calls" then
        match pyIdx message "tool_calls" with
        | .error e => .error e
        | .ok tcsJson =>
          match asList tcsJson with
          | .error e => .error e
          | .ok tcs =>
            match tcs.mapM (run_tool_call env) with
            | .error e => .error e
            | .ok results =>
              if resp2.status_code ≠ 200 then .error ("Error en la API: " ++ resp2.text)
              else
                match process_openrouter_response env.model_name resp2.body with
                | .error e => .error e
                | .ok pr => .ok { pr with tool_results := some results }
      else
        process_openrouter_response env.model_name resp1.body

/-! ## `app/services/pedido_service.py`: order placement -/

/-- One row of the `productos` table, as read and mutated by `crear_pedido`. -/
structure Producto where
  id : Nat
  precio : Int
  stock : Int
deriving DecidableEq

/-- One line item of an order request (`{producto_id, cantidad}`; the spec
and the HTTP model require `cantidad > 0`). -/
structure Item where
  producto_id : Nat
  cantidad : Int
deriving DecidableEq

/-- One row of the `pedidos` table. -/
structure Pedido where
  id : Nat
  usuario_id : Int
  total : Int
  estado : String
deriving DecidableEq

/-- One row of the `detalles_pedido` table. -/
structure DetallePedido where
  pedido_id : Nat
  producto_id : Nat
  cantidad : Int
  precio_unitario : Int
  subtotal : Int
deriving DecidableEq

/-- The durable state touched by order placement; `next_pedido_id` models the
id sequence behind `RETURNING id`. -/
structure PedidosDB where
  productos : List Producto
  pedidos : List Pedido
  detalles_pedido : List DetallePedido
  next_pedido_id : Nat
deriving DecidableEq

/-- Embeds `SELECT precio, stock FROM productos WHERE id = %s FOR UPDATE` followed by
`fetchone()`. -/
def findProducto (ps : List Producto) (pid : Nat) : Option Producto :=
  ps.find? fun p => p.id == pid

/-- Embeds `UPDATE productos SET stock = stock - %s WHERE id = %s`. -/
def updateStock (ps : List Producto) (pid : Nat) (cantidad : Int) : List Producto :=
  ps.map fun p => if p.id == pid then { p with stock := p.stock - cantidad } else p

/-- The stock-check-and-decrement loop of `crear_pedido`: for each item in
order, fetch the product row (ValidationError if absent), check the stock
(ValidationError, with available and requested amounts, if insufficient),
decrement it and accumulate the total. -/
def verify_items : PedidosDB → List Item → Int → Except DBError (PedidosDB × Int)
  | st, [], total => .ok (st, total)
  | st, it :: rest, total =>
    match findProducto st.productos it.producto_id with
    | none =>
      .error (.validationError ("Producto " ++ toString it.producto_id ++ " no encontrado"))
    | some producto =>
      if producto.stock < it.cantidad then
        .error (.validationError
          ("Stock insuficiente para el producto " ++ toString it.producto_id ++
           ". Disponible: " ++ toString producto.stock ++
           ", Solicitado: " ++ toString it.cantidad))
      else
        verify_items
          { st with productos := updateStock st.productos it.producto_id it.cantidad }
          rest (total + producto.precio * it.cantidad)

/-- The detail-insertion loop of `crear_pedido`: one
`INSERT INTO detalles_pedido ... SELECT ... FROM productos WHERE id = %s`
per item, reading the product price from the current transaction state. -/
def insert_detalles (pedido_id : Nat) : PedidosDB → List Item → PedidosDB
  | st, [] => st
  | st, it :: rest =>
    match findProducto st.productos it.producto_id with
    | none => insert_detalles pedido_id st rest
    | some p =>
      insert_detalles pedido_id
        { st with detalles_pedido := st.detalles_pedido ++
            [{ pedido_id := pedido_id, producto_id := it.producto_id,
               cantidad := it.cantidad, precio_unitario := p.precio,
               subtotal := p.precio * it.cantidad }] }
        rest

/-- The success payload of `crear_pedido`. -/
structure CrearPedidoResult where
  status : String
  message : String
  pedido_id : Nat
  total : Int
deriving DecidableEq

/-- Embeds `PedidoService.crear_pedido`: reject an empty item list, then inside one
transaction verify and decrement stock per item, insert the order row with
estado `pendiente`, insert one detail row per item, and commit; on any raised
exception the transaction is rolled back (the returned state is the original
one) and the `ValidationError` propagates unchanged. The only exceptions the
embedded transaction body can raise are `ValidationError`s, so the generic
`DatabaseError` wrap of the outer handler is unreachable here. -/
def crear_pedido (st : PedidosDB) (usuario_id : Int) (items : List Item) :
    PedidosDB × Except DBError CrearPedidoResult :=
  if items.isEmpty then
    (st, .error (.validationError "El pedido debe contener al menos un item"))
  else
    match verify_items st items 0 with
    | .error e => (st, .error e)
    | .ok (st1, total) =>
      let pedido_id := st1.next_pedido_id
      let st2 : PedidosDB :=
        { st1 with
          pedidos := st1.pedidos ++
            [{ id := pedido_id, usuario_id := usuario_id, total := total,
               estado := "pendiente" }],
          next_pedido_id := pedido_id + 1 }
      let st3 := insert_detalles pedido_id st2 items
      (st3, .ok { status := "success", message := "Pedido creado exitosamente",
                  pedido_id := pedido_id, total := total })

/-- A line item whose product is absent from `ps` or whose requested quantity
exceeds the product stock recorded in `ps`. -/
def item_bad (ps : List Producto) (it : Item) : Bool :=
  match findProducto ps it.producto_id with
  | none => true
  | some p => p.stock < it.cantidad

/-- States that `cur` is `base` after some nonnegative stock decrements: the same
products exist, with the same prices, and with no larger stock. -/
def StockRefines (cur base : List Producto) : Prop :=
  ∀ pid, (findProducto cur pid = none ↔ findProducto base pid = none) ∧
    ∀ p, findProducto cur pid = some p →
      ∃ q, findProducto base pid = some q ∧ p.precio = q.precio ∧ p.stock ≤ q.stock

/-- The total quantity requested across all line items for one product. -/
def totalRequested (items : List Item) (pid : Nat) : Int :=
  ((items.filter fun it => it.producto_id == pid).map Item.cantidad).sum

/-- The price column of a product row (0 for an absent product). -/
def precioOf (ps : List Producto) (pid : Nat) : Int :=
  match findProducto ps pid with
  | some p => p.precio
  | none => 0

/-- Specification-side total: the sum over line items of price at order time
times requested quantity. -/
def specTotal (st : PedidosDB) (items : List Item) : Int :=
  (items.map fun it => precioOf st.productos it.producto_id * it.cantidad).sum

/-- Specification-side stock effect: every product keeps its identity and
price, and its stock drops by exactly the total quantity requested for it. -/
def specDecrement (st : PedidosDB) (items : List Item) : List Producto :=
  st.productos.map fun p => { p with stock := p.stock - totalRequested items p.id }

/-- Specification-side detail rows: one per line item, in order, referencing
the new order id and priced at order time. -/
def specDetalles (st : PedidosDB) (pedido_id : Nat) (items : List Item) :
    List DetallePedido :=
  items.map fun it =>
    { pedido_id := pedido_id, producto_id := it.producto_id,
      cantidad := it.cantidad, precio_unitario := precioOf st.productos it.producto_id,
      subtotal := precioOf st.productos it.producto_id * it.cantidad }

/-- A small concrete database used to evaluate theorems on closed inputs. -/
def sampleCatalog : Catalog where
  tables := ["users"]
  tableType := fun _ => "BASE TABLE"
  columnsOf := fun _ => []
  constraintsOf := fun _ => []
  execQuery := fun _ => .ok ([], 0)
  commitResult := none
  countOf := fun _ => 0

/-- A concrete tool-call directive dispatching `list_tables`. -/
def tcListTables : Json :=
  .obj [("id", .str "c1"),
        ("function", .obj [("arguments", .obj [("action", .str "list_tables")])])]

/-- A concrete tool-call directive naming an unsupported action. -/
def tcBogus : Json :=
  .obj [("id", .str "c2"),
        ("function", .obj [("arguments", .obj [("action", .str "bogus")])])]

/-- A concrete first upstream body carrying the two directives above. -/
def chatBody1 : Json :=
  .obj [("choices", .arr [.obj [("message",
    .obj [("tool_calls", .arr [tcListTables, tcBogus])])]])]

/-- A concrete second upstream body with a plain text answer. -/
def chatBody2 : Json :=
  .obj [("choices", .arr [.obj [("message",
    .obj [("content", .str "done")])]])]

/-- A concrete orchestrator environment over `sampleCatalog`. -/
def sampleEnv : AIEnv :=
  { db := some sampleCatalog, dbErrText := "x", model_name := "m",
    decode := fun _ => .error "unused" }

/-! ## Generic lemmas on the Python string primitives -/

theorem containsSub_iff (k l : List Char) : containsSub k l = true ↔ k <:+: l := by
  induction l with
  | nil => simp [containsSub, List.isEmpty_iff]
  | cons c rest ih =>
    simp [containsSub, Bool.or_eq_true, List.isPrefixOf_iff_prefix, ih,
      List.infix_cons_iff]

theorem pyStrip_infix_base (l : List Char) : pyStrip l <:+: l := by
  unfold pyStrip
  have h1 : l.dropWhile pyWhitespace <:+ l := List.dropWhile_suffix _
  have h2 : (l.dropWhile pyWhitespace).reverse.dropWhile pyWhitespace <:+
      (l.dropWhile pyWhitespace).reverse := List.dropWhile_suffix _
  have h3 : ((l.dropWhile pyWhitespace).reverse.dropWhile pyWhitespace).reverse <+:
      l.dropWhile pyWhitespace := by
    have h4 := h2.reverse
    simpa using h4
  exact h3.isInfix.trans h1.isInfix

theorem infix_dropWhile_of_head (p : Char → Bool) (c : Char) (k l : List Char)
    (hc : p c = false) (h : (c :: k) <:+: l) : (c :: k) <:+: l.dropWhile p := by
  induction l with
  | nil => simp at h
  | cons a t ih =>
    rw [List.dropWhile_cons]
    by_cases hpa : p a = true
    · simp only [hpa, if_true]
      apply ih
      rcases List.infix_cons_iff.mp h with hpre | hinf
      · rcases List.cons_prefix_cons.mp hpre with ⟨hca, _⟩
        rw [← hca, hc] at hpa
        cases hpa
      · exact hinf
    · simp only [Bool.not_eq_true] at hpa
      simp [hpa]
      exact h

theorem infix_pyStrip (k l : List Char) (hk : k ≠ [])
    (hhead : k.head?.all (fun c => !pyWhitespace c) = true)
    (hlast : k.getLast?.all (fun c => !pyWhitespace c) = true)
    (h : k <:+: l) : k <:+: pyStrip l := by
  obtain ⟨c, k2, rfl⟩ := List.exists_cons_of_ne_nil hk
  have hc : pyWhitespace c = false := by
    simpa using hhead
  have h1 : (c :: k2) <:+: l.dropWhile pyWhitespace :=
    infix_dropWhile_of_head _ _ _ _ hc h
  have h2 : (c :: k2).reverse <:+: (l.dropWhile pyWhitespace).reverse :=
    List.reverse_infix.mpr h1
  obtain ⟨d, kr, hrev⟩ : ∃ d kr, (c :: k2).reverse = d :: kr := by
    cases hh : (c :: k2).reverse with
    | nil => simp at hh
    | cons d kr => exact ⟨d, kr, rfl⟩
  have hd : pyWhitespace d = false := by
    have hgl : (c :: k2).getLast? = some d := by
      rw [← List.head?_reverse, hrev]
      rfl
    rw [hgl] at hlast
    simpa using hlast
  rw [hrev] at h2
  have h3 : (d :: kr) <:+: ((l.dropWhile pyWhitespace).reverse).dropWhile pyWhitespace :=
    infix_dropWhile_of_head _ _ _ _ hd h2
  rw [← hrev] at h3
  unfold pyStrip
  refine List.reverse_infix.mp ?_
  simpa using h3

theorem dangerous_keywords_ends : ∀ k ∈ dangerous_keywords,
    k ≠ [] ∧ k.head?.all (fun c => !pyWhitespace c) = true ∧
      k.getLast?.all (fun c => !pyWhitespace c) = true := by decide

/-! ## C4 -/

/-- C4: `_is_safe_query` rejects a SQL text (returns `false`) if and only if
its lowercased character sequence contains one of the ten deny-listed phrases
as a contiguous substring; every other text is accepted, regardless of case. -/
theorem is_safe_query_denylist_iff (query : String) :
    is_safe_query query = false ↔
      ∃ k ∈ dangerous_keywords, k <:+: lowerChars query := by
  unfold is_safe_query
  rw [Bool.not_eq_false', List.any_eq_true]
  constructor
  · rintro ⟨k, hk, hcont⟩
    exact ⟨k, hk, ((containsSub_iff k _).mp hcont).trans (pyStrip_infix_base _)⟩
  · rintro ⟨k, hk, hinf⟩
    obtain ⟨hne, hh, hl⟩ := dangerous_keywords_ends k hk
    exact ⟨k, hk, (containsSub_iff k _).mpr (infix_pyStrip k _ hne hh hl hinf)⟩

/-! ## C9 -/

/-- C9 (counterexample to the claim as stated): with the store unreachable,
`list_tables` does not fail with `ConnectionError` (503); the
`ConnectionError` raised by `_get_connection` is caught by the generic
handler of `list_tables` and re-raised as a plain `DatabaseError` (500). -/
theorem list_tables_unreachable_cex :
    list_tables none "network unreachable" =
      .error (.databaseError ("Error al listar tablas: " ++
        ("Error de conexión a la base de datos: " ++
          ("Error al conectar a la base de datos: " ++ "network unreachable")))) ∧
    isConnectionFailure (list_tables none "network unreachable") = false ∧
    (DBError.databaseError ("Error al listar tablas: " ++
        ("Error de conexión a la base de datos: " ++
          ("Error al conectar a la base de datos: " ++ "network unreachable")))).code = 500 :=
  ⟨rfl, rfl, rfl⟩

/-- C9 (amended): for every invocation of `list_tables` in which the database
cannot be reached, the operation fails with a generic `DatabaseError` whose
HTTP status code is 500 and whose message wraps the underlying
connection-failure message (not with `ConnectionError`/503). -/
theorem list_tables_unreachable_wraps_database_error (errText : String) :
    list_tables none errText =
      .error (.databaseError ("Error al listar tablas: " ++
        ("Error de conexión a la base de datos: " ++
          ("Error al conectar a la base de datos: " ++ errText)))) ∧
    (DBError.databaseError ("Error al listar tablas: " ++
        ("Error de conexión a la base de datos: " ++
          ("Error al conectar a la base de datos: " ++ errText)))).code = 500 ∧
    isConnectionFailure (list_tables none errText) = false := by
  refine ⟨rfl, rfl, ?_⟩
  rfl

/-! ## C10 -/

/-- C10: every failure of `execute_query` reaches the caller as
`QueryError(query, str(e))`, which carries HTTP status 400; in particular a
deny-listed statement raises a `ValidationError` internally, but the generic
handler catches it and re-raises it as a `QueryError` wrapping the validation
message, so `execute_query` never raises `ValidationError` to its caller. -/
theorem execute_query_error_is_query_failure (db : Option Catalog)
    (errText query : String) :
    (∀ e, execute_query db errText query = .error e →
      (∃ t, e = .queryError query t) ∧ e.code = 400 ∧
        isValidationFailure (execute_query db errText query) = false) ∧
    (is_safe_query query = false →
      execute_query db errText query =
        .error (.queryError query unsafe_query_message)) := by
  constructor
  · intro e he
    unfold execute_query at he ⊢
    cases h : execute_query_inner db errText query with
    | ok r => rw [h] at he; cases he
    | error pe =>
      rw [h] at he
      cases he
      exact ⟨⟨pe.text, rfl⟩, rfl, rfl⟩
  · intro hdeny
    unfold execute_query execute_query_inner
    rw [hdeny]
    rfl

/-- Witness for C10 at a concrete deny-listed statement. -/
theorem execute_query_error_is_query_failure_witness :
    execute_query none "boom" "DROP DATABASE prod" =
      .error (.queryError "DROP DATABASE prod" unsafe_query_message) :=
  (execute_query_error_is_query_failure none "boom" "DROP DATABASE prod").2 (by decide)

/-! ## C3 -/

/-- C3: the Command Dispatcher (modelled from the spec, since
`execute_mcp_command` is absent from `src/`) fails with a `ValidationError`
naming `table_name` when `describe_table` or `get_table_content` is called
without it, fails with a `ValidationError` naming `query` when
`execute_query` is called without it, fails with a `ValidationError` naming
the invalid action for any action outside the four supported ones, and maps
each supported action to the corresponding Database Access Layer call. -/
theorem execute_mcp_command_dispatch (db : Option Catalog) (errText : String)
    (params : Json) (action : String)
    (htn : jGet params "table_name" = none)
    (hq : jGet params "query" = none)
    (hact : action ∉ ["list_tables", "describe_table", "execute_query", "get_table_content"]) :
    execute_mcp_command db errText "describe_table" params =
      .error (.validationError "Missing required parameter: table_name") ∧
    execute_mcp_command db errText "get_table_content" params =
      .error (.validationError "Missing required parameter: table_name") ∧
    execute_mcp_command db errText "execute_query" params =
      .error (.validationError "Missing required parameter: query") ∧
    execute_mcp_command db errText action params =
      .error (.validationError ("Invalid action: " ++ action)) ∧
    execute_mcp_command db errText "list_tables" params =
      (list_tables db errText).map MCPResult.tablesR ∧
    (∀ p2 t, jGet p2 "table_name" = some (.str t) →
      execute_mcp_command db errText "describe_table" p2 =
        (get_table_structure db errText t).map MCPResult.structR) ∧
    (∀ p2 q2, jGet p2 "query" = some (.str q2) →
      execute_mcp_command db errText "execute_query" p2 =
        (execute_query db errText q2).map MCPResult.queryR) ∧
    (∀ p2 t, jGet p2 "table_name" = some (.str t) →
      execute_mcp_command db errText "get_table_content" p2 =
        (get_table_content db errText t (jGetInt p2 "limit") (jGetInt p2 "offset")
          (jGetStr p2 "order_by") (jGetStr p2 "order_direction")).map MCPResult.contentR) := by
  simp only [List.mem_cons, List.not_mem_nil, or_false] at hact
  push_neg at hact
  obtain ⟨ha1, ha2, ha3, ha4⟩ := hact
  refine ⟨?_, ?_, ?_, ?_, ?_, ?_, ?_, ?_⟩
  · unfold execute_mcp_command
    rw [htn]
    rfl
  · unfold execute_mcp_command
    rw [htn]
    rfl
  · unfold execute_mcp_command
    rw [hq]
    rfl
  · unfold execute_mcp_command
    simp [ha1, ha2, ha3, ha4]
  · rfl
  · intro p2 t hp2
    unfold execute_mcp_command
    rw [hp2]
    rfl
  · intro p2 q2 hp2
    unfold execute_mcp_command
    rw [hp2]
    rfl
  · intro p2 t hp2
    unfold execute_mcp_command
    rw [hp2]
    rfl

/-- Witness for C3: a concrete missing parameter and a concrete unsupported
action name. -/
theorem execute_mcp_command_dispatch_witness :
    execute_mcp_command none "x" "describe_table" (.obj []) =
      .error (.validationError "Missing required parameter: table_name") ∧
    execute_mcp_command none "x" "drop_everything" (.obj []) =
      .error (.validationError ("Invalid action: " ++ "drop_everything")) :=
  ⟨(execute_mcp_command_dispatch none "x" (.obj []) "drop_everything" rfl rfl
      (by decide)).1,
   (execute_mcp_command_dispatch none "x" (.obj []) "drop_everything" rfl rfl
      (by decide)).2.2.2.1⟩

/-! ## C5 -/

/-- C5: for every table name absent from the public-schema catalog of a
reachable database, `get_table_content` fails with `TableNotFoundError` for
every caller: the direct service call, the Command Dispatcher call (modelled
from the spec), and the HTTP route, which returns 404 with a detail message
naming the table. -/
theorem get_table_content_missing_table (c : Catalog) (errText t : String)
    (lim off : Option Int) (ob od : Option String) (params : Json)
    (hmem : t ∉ c.tables)
    (hp : jGet params "table_name" = some (.str t)) :
    get_table_content (some c) errText t lim off ob od =
      .error (.tableNotFoundError t) ∧
    execute_mcp_command (some c) errText "get_table_content" params =
      .error (.tableNotFoundError t) ∧
    route_get_table_content (some c) errText t lim off ob od =
      .error { status_code := 404, detail := (DBError.tableNotFoundError t).message } ∧
    t.data <:+: ((DBError.tableNotFoundError t).message).data := by
  have hc : c.tables.contains t = false := by
    simpa using hmem
  have hex : table_exists (some c) errText t = .ok false := by
    simp only [table_exists, get_connection]
    rw [hc]
  have hgen : ∀ (l o : Option Int) (obb odd : Option String),
      get_table_content (some c) errText t l o obb odd =
        .error (.tableNotFoundError t) := by
    intro l o obb odd
    unfold get_table_content
    rw [hex]
  refine ⟨hgen lim off ob od, ?_, ?_, ?_⟩
  · unfold execute_mcp_command
    rw [hp]
    show Except.map MCPResult.contentR
        (get_table_content (some c) errText t (jGetInt params "limit")
          (jGetInt params "offset") (jGetStr params "order_by")
          (jGetStr params "order_direction")) =
      Except.error (DBError.tableNotFoundError t)
    rw [hgen]
    rfl
  · unfold route_get_table_content
    rw [hgen]
  · refine ⟨("La tabla " ++ sq).data, (sq ++ " no existe").data, ?_⟩
    simp [DBError.message]

/-- Witness for C5 on a concrete catalog and a concrete absent table name. -/
theorem get_table_content_missing_table_witness :
    get_table_content (some sampleCatalog) "x" "missing" none none none none =
      .error (.tableNotFoundError "missing") ∧
    execute_mcp_command (some sampleCatalog) "x" "get_table_content"
        (.obj [("table_name", .str "missing")]) =
      .error (.tableNotFoundError "missing") ∧
    route_get_table_content (some sampleCatalog) "x" "missing" none none none none =
      .error { status_code := 404,
               detail := (DBError.tableNotFoundError "missing").message } := by
  have h := get_table_content_missing_table sampleCatalog "x" "missing"
    none none none none (.obj [("table_name", .str "missing")]) (by decide) rfl
  exact ⟨h.1, h.2.1, h.2.2.1⟩

/-! ## C7 -/

/-- The full shape of a successful `_process_openrouter_response` run: every
intermediate lookup succeeded and the result is the literal built from them. -/
theorem process_or_ok_shape (model_name : String) (response : Json)
    (r : ChatPayload)
    (h : process_openrouter_response model_name response = .ok r) :
    ∃ choices first model_response content usage_data prompt_details
      completion_details pt ct tt pd cd mdl,
      r = { content := content, model := mdl,
            usage := { prompt_tokens := pt, completion_tokens := ct,
                       total_tokens := tt, prompt_tokens_details := pd,
                       completion_tokens_details := cd },
            tool_results := none } ∧
      pyGet response "choices" (.arr [.obj []]) = .ok choices ∧
      pyIdx0 choices = .ok first ∧
      pyGet first "message" (.obj []) = .ok model_response ∧
      pyGet model_response "content" (.str "") = .ok content ∧
      pyGet response "usage" (.obj []) = .ok usage_data ∧
      pyGet usage_data "prompt_tokens_details" (.obj []) = .ok prompt_details ∧
      pyGet usage_data "completion_tokens_details" (.obj []) = .ok completion_details ∧
      pyGet usage_data "prompt_tokens" (.num 0) = .ok pt ∧
      pyGet usage_data "completion_tokens" (.num 0) = .ok ct ∧
      pyGet usage_data "total_tokens" (.num 0) = .ok tt ∧
      (if truthy prompt_details
       then (build_token_details prompt_details).map some
       else .ok none) = .ok pd ∧
      (if truthy completion_details
       then (build_token_details completion_details).map some
       else .ok none) = .ok cd ∧
      pyGet response "model" (.str model_name) = .ok mdl := by
  unfold process_openrouter_response at h
  obtain ⟨choices, h1⟩ : ∃ v, pyGet response "choices" (.arr [.obj []]) = .ok v := by
    cases hx : pyGet response "choices" (.arr [.obj []]) with
    | ok v => exact ⟨v, rfl⟩
    | error e => rw [hx] at h; exact (Except.noConfusion h)
  rw [h1] at h
  dsimp only at h
  obtain ⟨first, h2⟩ : ∃ v, pyIdx0 choices = .ok v := by
    cases hx : pyIdx0 choices with
    | ok v => exact ⟨v, rfl⟩
    | error e => rw [hx] at h; exact (Except.noConfusion h)
  rw [h2] at h
  dsimp only at h
  obtain ⟨mr, h3⟩ : ∃ v, pyGet first "message" (.obj []) = .ok v := by
    cases hx : pyGet first "message" (.obj []) with
    | ok v => exact ⟨v, rfl⟩
    | error e => rw [hx] at h; exact (Except.noConfusion h)
  rw [h3] at h
  dsimp only at h
  obtain ⟨content, h4⟩ : ∃ v, pyGet mr "content" (.str "") = .ok v := by
    cases hx : pyGet mr "content" (.str "") with
    | ok v => exact ⟨v, rfl⟩
    | error e => rw [hx] at h; exact (Except.noConfusion h)
  rw [h4] at h
  dsimp only at h
  obtain ⟨usage_data, h5⟩ : ∃ v, pyGet response "usage" (.obj []) = .ok v := by
    cases hx : pyGet response "usage" (.obj []) with
    | ok v => exact ⟨v, rfl⟩
    | error e => rw [hx] at h; exact (Except.noConfusion h)
  rw [h5] at h
  dsimp only at h
  obtain ⟨prompt_details, h6⟩ : ∃ v, pyGet usage_data "prompt_tokens_details" (.obj []) = .ok v := by
    cases hx : pyGet usage_data "prompt_tokens_details" (.obj []) with
    | ok v => exact ⟨v, rfl⟩
    | error e => rw [hx] at h; exact (Except.noConfusion h)
  rw [h6] at h
  dsimp only at h
  obtain ⟨completion_details, h7⟩ : ∃ v, pyGet usage_data "completion_tokens_details" (.obj []) = .ok v := by
    cases hx : pyGet usage_data "completion_tokens_details" (.obj []) with
    | ok v => exact ⟨v, rfl⟩
    | error e => rw [hx] at h; exact (Except.noConfusion h)
  rw [h7] at h
  dsimp only at h
  obtain ⟨pt, h8⟩ : ∃ v, pyGet usage_data "prompt_tokens" (.num 0) = .ok v := by
    cases hx : pyGet usage_data "prompt_tokens" (.num 0) with
    | ok v => exact ⟨v, rfl⟩
    | error e => rw [hx] at h; exact (Except.noConfusion h)
  rw [h8] at h
  dsimp only at h
  obtain ⟨ct, h9⟩ : ∃ v, pyGet usage_data "completion_tokens" (.num 0) = .ok v := by
    cases hx : pyGet usage_data "completion_tokens" (.num 0) with
    | ok v => exact ⟨v, rfl⟩
    | error e => rw [hx] at h; exact (Except.noConfusion h)
  rw [h9] at h
  dsimp only at h
  obtain ⟨tt, h10⟩ : ∃ v, pyGet usage_data "total_tokens" (.num 0) = .ok v := by
    cases hx : pyGet usage_data "total_tokens" (.num 0) with
    | ok v => exact ⟨v, rfl⟩
    | error e => rw [hx] at h; exact (Except.noConfusion h)
  rw [h10] at h
  dsimp only at h
  obtain ⟨pd, h11⟩ : ∃ v, (if truthy prompt_details then (build_token_details prompt_details).map some else .ok none) = .ok v := by
    cases hx : (if truthy prompt_details then (build_token_details prompt_details).map some else .ok none) with
    | ok v => exact ⟨v, rfl⟩
    | error e => rw [hx] at h; exact (Except.noConfusion h)
  rw [h11] at h
  dsimp only at h
  obtain ⟨cd, h12⟩ : ∃ v, (if truthy completion_details then (build_token_details completion_details).map some else .ok none) = .ok v := by
    cases hx : (if truthy completion_details then (build_token_details completion_details).map some else .ok none) with
    | ok v => exact ⟨v, rfl⟩
    | error e => rw [hx] at h; exact (Except.noConfusion h)
  rw [h12] at h
  dsimp only at h
  obtain ⟨mdl, h13⟩ : ∃ v, pyGet response "model" (.str model_name) = .ok v := by
    cases hx : pyGet response "model" (.str model_name) with
    | ok v => exact ⟨v, rfl⟩
    | error e => rw [hx] at h; exact (Except.noConfusion h)
  rw [h13] at h
  dsimp only at h
  injection h with h
  exact ⟨choices, first, mr, content, usage_data, prompt_details,
    completion_details, pt, ct, tt, pd, cd, mdl, h.symm, h1, h2, h3, h4, h5,
    h6, h7, h8, h9, h10, h11, h12, h13⟩

/-- An absent key makes `pyGet` return its default (when it returns at all). -/
theorem pyGet_default_of_not_hasKey (j : Json) (key : String) (dflt v : Json)
    (hk : hasKey j key = false) (hv : pyGet j key dflt = .ok v) : v = dflt := by
  cases j with
  | obj fs =>
    unfold hasKey at hk
    unfold pyGet at hv
    dsimp only at hv
    rw [List.any_eq_false] at hk
    have hfind : (fs.find? fun kv => kv.1 == key) = none :=
      List.find?_eq_none.mpr fun kv hkv => by simpa using hk kv hkv
    rw [hfind] at hv
    simpa using hv.symm
  | null => exact (Except.noConfusion hv)
  | bool b => exact (Except.noConfusion hv)
  | num n => exact (Except.noConfusion hv)
  | str s => exact (Except.noConfusion hv)
  | arr l => exact (Except.noConfusion hv)

/-- A successful `build_token_details` run records the three lookups. -/
theorem build_token_details_fields (d : Json) (td : ORTokenDetails)
    (h : build_token_details d = .ok td) :
    pyGet d "cached_tokens" (.num 0) = .ok td.cached_tokens ∧
    pyGet d "reasoning_tokens" (.num 0) = .ok td.reasoning_tokens ∧
    pyGet d "total_tokens" (.num 0) = .ok td.total_tokens := by
  unfold build_token_details at h
  repeat' split at h
  any_goals exact (Except.noConfusion h)
  cases h
  exact ⟨by assumption, by assumption, by assumption⟩

/-- C7 (amended): a `ChatPayload` built from an upstream payload defaults
every absent token count to 0, leaves `tool_results` absent, maps an absent
(or present-but-empty, hence falsy) token-detail dictionary to an absent
breakdown, and for a present non-empty token-detail dictionary defaults every
absent numeric field inside it to 0. -/
theorem openrouter_response_defaults (model_name : String)
    (response usage_data : Json) (r : ChatPayload)
    (h : process_openrouter_response model_name response = .ok r)
    (hu : pyGet response "usage" (.obj []) = .ok usage_data) :
    (hasKey usage_data "prompt_tokens" = false → r.usage.prompt_tokens = .num 0) ∧
    (hasKey usage_data "completion_tokens" = false → r.usage.completion_tokens = .num 0) ∧
    (hasKey usage_data "total_tokens" = false → r.usage.total_tokens = .num 0) ∧
    (hasKey usage_data "prompt_tokens_details" = false →
      r.usage.prompt_tokens_details = none) ∧
    (hasKey usage_data "completion_tokens_details" = false →
      r.usage.completion_tokens_details = none) ∧
    r.tool_results = none ∧
    (∀ d, pyGet usage_data "prompt_tokens_details" (.obj []) = .ok d →
      truthy d = true →
      ∃ td, r.usage.prompt_tokens_details = some td ∧
        (hasKey d "cached_tokens" = false → td.cached_tokens = .num 0) ∧
        (hasKey d "reasoning_tokens" = false → td.reasoning_tokens = .num 0) ∧
        (hasKey d "total_tokens" = false → td.total_tokens = .num 0)) ∧
    (∀ d, pyGet usage_data "completion_tokens_details" (.obj []) = .ok d →
      truthy d = true →
      ∃ td, r.usage.completion_tokens_details = some td ∧
        (hasKey d "cached_tokens" = false → td.cached_tokens = .num 0) ∧
        (hasKey d "reasoning_tokens" = false → td.reasoning_tokens = .num 0) ∧
        (hasKey d "total_tokens" = false → td.total_tokens = .num 0)) := by
  obtain ⟨choices, first, mr, content, ud, pdet, cdet, pt, ct, tt, pd, cd, mdl,
    hr, hch, hf, hm, hco, hud, hpdet, hcdet, hpt, hct, htt, hpd, hcd, hmdl⟩ :=
    process_or_ok_shape model_name response r h
  rw [hud] at hu
  injection hu with hu
  subst hu
  subst hr
  refine ⟨?_, ?_, ?_, ?_, ?_, rfl, ?_, ?_⟩
  · intro hk
    simpa using pyGet_default_of_not_hasKey ud "prompt_tokens" (.num 0) pt hk hpt
  · intro hk
    simpa using pyGet_default_of_not_hasKey ud "completion_tokens" (.num 0) ct hk hct
  · intro hk
    simpa using pyGet_default_of_not_hasKey ud "total_tokens" (.num 0) tt hk htt
  · intro hk
    have hd0 : pdet = .obj [] :=
      pyGet_default_of_not_hasKey ud "prompt_tokens_details" (.obj []) pdet hk hpdet
    rw [hd0] at hpd
    simp only [truthy, List.isEmpty_nil, Bool.not_true, Bool.false_eq_true,
      if_false] at hpd
    simpa using hpd.symm
  · intro hk
    have hd0 : cdet = .obj [] :=
      pyGet_default_of_not_hasKey ud "completion_tokens_details" (.obj []) cdet hk hcdet
    rw [hd0] at hcd
    simp only [truthy, List.isEmpty_nil, Bool.not_true, Bool.false_eq_true,
      if_false] at hcd
    simpa using hcd.symm
  · intro d hd htr
    rw [hpdet] at hd
    injection hd with hd
    subst hd
    rw [htr, if_pos rfl] at hpd
    cases hb : build_token_details pdet with
    | error e => rw [hb] at hpd; exact (Except.noConfusion hpd)
    | ok td =>
      rw [hb] at hpd
      injection hpd with hpd
      obtain ⟨hb1, hb2, hb3⟩ := build_token_details_fields pdet td hb
      refine ⟨td, by simp [← hpd], ?_, ?_, ?_⟩
      · intro hk
        exact pyGet_default_of_not_hasKey pdet "cached_tokens" (.num 0) _ hk hb1
      · intro hk
        exact pyGet_default_of_not_hasKey pdet "reasoning_tokens" (.num 0) _ hk hb2
      · intro hk
        exact pyGet_default_of_not_hasKey pdet "total_tokens" (.num 0) _ hk hb3
  · intro d hd htr
    rw [hcdet] at hd
    injection hd with hd
    subst hd
    rw [htr, if_pos rfl] at hcd
    cases hb : build_token_details cdet with
    | error e => rw [hb] at hcd; exact (Except.noConfusion hcd)
    | ok td =>
      rw [hb] at hcd
      injection hcd with hcd
      obtain ⟨hb1, hb2, hb3⟩ := build_token_details_fields cdet td hb
      refine ⟨td, by simp [← hcd], ?_, ?_, ?_⟩
      · intro hk
        exact pyGet_default_of_not_hasKey cdet "cached_tokens" (.num 0) _ hk hb1
      · intro hk
        exact pyGet_default_of_not_hasKey cdet "reasoning_tokens" (.num 0) _ hk hb2
      · intro hk
        exact pyGet_default_of_not_hasKey cdet "total_tokens" (.num 0) _ hk hb3

/-- C7 (counterexample to the claim as stated): an upstream payload whose
usage block carries a present but empty `prompt_tokens_details` dictionary.
The dictionary is present (`hasKey` is true), yet the built response omits
the breakdown entirely (`prompt_tokens_details = none`) instead of
defaulting its absent numeric fields to 0: Python falsiness of the empty
dictionary makes `_process_openrouter_response` treat it as absent. -/
theorem openrouter_empty_details_cex :
    hasKey (Json.obj [("prompt_tokens_details", Json.obj [])])
      "prompt_tokens_details" = true ∧
    truthy (Json.obj []) = false ∧
    process_openrouter_response "m"
        (.obj [("choices", .arr [.obj []]),
               ("usage", .obj [("prompt_tokens_details", .obj [])])]) =
      .ok { content := .str "", model := .str "m",
            usage := { prompt_tokens := .num 0, completion_tokens := .num 0,
                       total_tokens := .num 0, prompt_tokens_details := none,
                       completion_tokens_details := none },
            tool_results := none } :=
  ⟨rfl, rfl, rfl⟩

/-- Witness for C7 on a concrete payload with a non-empty prompt breakdown
that omits two of its numeric fields. -/
theorem openrouter_response_defaults_witness :
    process_openrouter_response "m"
        (.obj [("choices", .arr [.obj []]),
               ("usage", .obj [("prompt_tokens_details",
                  .obj [("cached_tokens", .num 5)])])]) =
      .ok { content := .str "", model := .str "m",
            usage := { prompt_tokens := .num 0, completion_tokens := .num 0,
                       total_tokens := .num 0,
                       prompt_tokens_details :=
                         some { cached_tokens := .num 5, reasoning_tokens := .num 0,
                                total_tokens := .num 0 },
                       completion_tokens_details := none },
            tool_results := none } ∧
    ({ content := .str "", model := .str "m",
       usage := { prompt_tokens := .num 0, completion_tokens := .num 0,
                  total_tokens := .num 0,
                  prompt_tokens_details :=
                    some { cached_tokens := .num 5, reasoning_tokens := .num 0,
                           total_tokens := .num 0 },
                  completion_tokens_details := none },
       tool_results := none } : ChatPayload).usage.prompt_tokens = .num 0 ∧
    ({ content := .str "", model := .str "m",
       usage := { prompt_tokens := .num 0, completion_tokens := .num 0,
                  total_tokens := .num 0,
                  prompt_tokens_details :=
                    some { cached_tokens := .num 5, reasoning_tokens := .num 0,
                           total_tokens := .num 0 },
                  completion_tokens_details := none },
       tool_results := none } : ChatPayload).tool_results = none := by
  refine ⟨rfl, ?_, ?_⟩
  · exact (openrouter_response_defaults "m"
      (.obj [("choices", .arr [.obj []]),
             ("usage", .obj [("prompt_tokens_details",
                .obj [("cached_tokens", .num 5)])])])
      (.obj [("prompt_tokens_details", .obj [("cached_tokens", .num 5)])])
      _ rfl rfl).1 rfl
  · exact (openrouter_response_defaults "m"
      (.obj [("choices", .arr [.obj []]),
             ("usage", .obj [("prompt_tokens_details",
                .obj [("cached_tokens", .num 5)])])])
      (.obj [("prompt_tokens_details", .obj [("cached_tokens", .num 5)])])
      _ rfl rfl).2.2.2.2.2.1

/-! ## C6 -/

/-- C6 (counterexample to the claim as stated): upstream status 201 is a 2xx
status, yet `process_chat` fails with the wrapped error, because the code
checks `status_code != 200`, not membership in the 2xx class. -/
theorem process_chat_status_201_cex :
    process_chat
        { db := none, dbErrText := "x", model_name := "m",
          decode := fun _ => .error "unused" }
        { status_code := 201, text := "created", body := .null }
        { status_code := 200, text := "", body := .null } =
      .error ("Error en la API: " ++ "created") ∧
    200 ≤ 201 ∧ 201 < 300 :=
  ⟨rfl, by decide, by decide⟩

/-- C6 (amended): at either submission, `process_chat` fails with the wrapped
error carrying the upstream response body exactly when the upstream status is
not equal to 200 (the code treats 200, not the 2xx class, as the only success
status), and proceeds normally on status 200. -/
theorem process_chat_status_check (env : AIEnv) (resp1 resp2 : HttpResp) :
    (resp1.status_code ≠ 200 →
      process_chat env resp1 resp2 = .error ("Error en la API: " ++ resp1.text)) ∧
    (∀ message tcsJson tcs results,
      resp1.status_code = 200 →
      first_message resp1.body = .ok message →
      hasKey message "tool_calls" = true →
      pyIdx message "tool_calls" = .ok tcsJson →
      asList tcsJson = .ok tcs →
      tcs.mapM (run_tool_call env) = .ok results →
      resp2.status_code ≠ 200 →
      process_chat env resp1 resp2 = .error ("Error en la API: " ++ resp2.text)) ∧
    (∀ message r,
      resp1.status_code = 200 →
      first_message resp1.body = .ok message →
      hasKey message "tool_calls" = false →
      process_openrouter_response env.model_name resp1.body = .ok r →
      process_chat env resp1 resp2 = .ok r) := by
  refine ⟨?_, ?_, ?_⟩
  · intro hne
    unfold process_chat
    rw [if_pos hne]
  · intro message tcsJson tcs results h1 hmsg htck htc hlist hrun h2
    unfold process_chat
    rw [if_neg (not_not_intro h1), hmsg]
    try dsimp only
    rw [if_pos htck]
    try dsimp only
    rw [htc]
    try dsimp only
    rw [hlist]
    try dsimp only
    rw [hrun]
    try dsimp only
    rw [if_pos h2]
  · intro message r h1 hmsg htck hpr
    unfold process_chat
    rw [if_neg (not_not_intro h1), hmsg]
    try dsimp only
    rw [if_neg (by simp [htck])]
    exact hpr

/-- Witness for C6 at a concrete failing first submission. -/
theorem process_chat_status_check_witness :
    process_chat
        { db := none, dbErrText := "x", model_name := "m",
          decode := fun _ => .error "unused" }
        { status_code := 500, text := "boom", body := .null }
        { status_code := 200, text := "", body := .null } =
      .error ("Error en la API: " ++ "boom") :=
  (process_chat_status_check
      { db := none, dbErrText := "x", model_name := "m",
        decode := fun _ => .error "unused" }
      { status_code := 500, text := "boom", body := .null }
      { status_code := 200, text := "", body := .null }).1 (by decide)

/-! ## C8 -/

/-- When every directive carries an `id`, the tool loop never aborts: it
produces exactly one entry per directive, in order. -/
theorem mapM_run_tool_call (env : AIEnv) (tcs : List Json)
    (hids : ∀ tc ∈ tcs, ∃ idv, pyIdx tc "id" = .ok idv) :
    tcs.mapM (run_tool_call env) = .ok (tcs.map (entry_of env)) := by
  induction tcs with
  | nil => rfl
  | cons tc rest ih =>
    obtain ⟨idv, hid⟩ := hids tc (List.mem_cons_self tc rest)
    have hrest := ih fun t ht => hids t (List.mem_cons_of_mem tc ht)
    have hrtc : run_tool_call env tc = .ok (entry_of env tc) := by
      unfold run_tool_call
      rw [hid]
    rw [List.map_cons, List.mapM_cons, hrtc, hrest]
    rfl

/-- C8: when the first upstream response carries tool-call directives (each
with an id) and the resubmission succeeds, `process_chat` succeeds, its
`tool_results` holds exactly one entry per directive in order, and each entry
is tagged with its directive's call id and records either the dispatcher
result or, for a failed call, the rendered error message in place — a failure
of one call does not abort the others. -/
theorem process_chat_tool_results_per_directive (env : AIEnv)
    (resp1 resp2 : HttpResp) (message tcsJson : Json) (tcs : List Json)
    (pr : ChatPayload)
    (h1 : resp1.status_code = 200)
    (hmsg : first_message resp1.body = .ok message)
    (htck : hasKey message "tool_calls" = true)
    (htc : pyIdx message "tool_calls" = .ok tcsJson)
    (hlist : asList tcsJson = .ok tcs)
    (hids : ∀ tc ∈ tcs, ∃ idv, pyIdx tc "id" = .ok idv)
    (h2 : resp2.status_code = 200)
    (hpr : process_openrouter_response env.model_name resp2.body = .ok pr) :
    process_chat env resp1 resp2 =
      .ok { pr with tool_results := some (tcs.map (entry_of env)) } ∧
    (tcs.map (entry_of env)).length = tcs.length ∧
    List.Forall₂ (fun tc e =>
        pyIdx tc "id" = .ok e.tool_call_id ∧
        (∀ res, tool_call_outcome env tc = .ok res → e.outcome = .success res) ∧
        (∀ pe, tool_call_outcome env tc = .error pe →
          e.outcome = .failure (renderToolFailure pe)))
      tcs (tcs.map (entry_of env)) := by
  refine ⟨?_, by simp, ?_⟩
  · have hrun := mapM_run_tool_call env tcs hids
    unfold process_chat
    rw [if_neg (not_not_intro h1), hmsg]
    try dsimp only
    rw [if_pos htck]
    try dsimp only
    rw [htc]
    try dsimp only
    rw [hlist]
    try dsimp only
    rw [hrun]
    try dsimp only
    rw [if_neg (not_not_intro h2), hpr]
    try dsimp only
    try rfl
  · rw [List.forall₂_map_right_iff, List.forall₂_same]
    intro tc htcmem
    obtain ⟨idv, hid⟩ := hids tc htcmem
    cases ho : tool_call_outcome env tc with
    | ok res0 =>
      have hent : entry_of env tc =
          { tool_call_id := idv, outcome := .success res0 } := by
        unfold entry_of
        rw [hid]
        try dsimp only
        rw [ho]
      rw [hent]
      refine ⟨hid, ?_, ?_⟩
      · intro res hres
        injection hres with hres
        dsimp only
        rw [hres]
      · intro pe hpe
        exact (Except.noConfusion hpe)
    | error pe0 =>
      have hent : entry_of env tc =
          { tool_call_id := idv,
            outcome := .failure (renderToolFailure pe0) } := by
        unfold entry_of
        rw [hid]
        try dsimp only
        rw [ho]
      rw [hent]
      refine ⟨hid, ?_, ?_⟩
      · intro res hres
        exact (Except.noConfusion hres)
      · intro pe hpe
        injection hpe with hpe
        dsimp only
        rw [hpe]

/-- Witness for C8: two directives, the first dispatching `list_tables`
successfully and the second failing on an invalid action; the failure is
recorded in place and does not abort the first. -/
theorem process_chat_tool_results_witness :
    process_chat sampleEnv
        { status_code := 200, text := "", body := chatBody1 }
        { status_code := 200, text := "", body := chatBody2 } =
      .ok { content := .str "done", model := .str "m",
            usage := { prompt_tokens := .num 0, completion_tokens := .num 0,
                       total_tokens := .num 0, prompt_tokens_details := none,
                       completion_tokens_details := none },
            tool_results := some
              [{ tool_call_id := .str "c1",
                 outcome :=
                   .success (.tablesR { status := "success", tables := ["users"] }) },
               { tool_call_id := .str "c2",
                 outcome := .failure ("Invalid action: " ++ "bogus") }] } := by
  have h := (process_chat_tool_results_per_directive sampleEnv
    { status_code := 200, text := "", body := chatBody1 }
    { status_code := 200, text := "", body := chatBody2 }
    (.obj [("tool_calls", .arr [tcListTables, tcBogus])])
    (.arr [tcListTables, tcBogus])
    [tcListTables, tcBogus]
    { content := .str "done", model := .str "m",
      usage := { prompt_tokens := .num 0, completion_tokens := .num 0,
                 total_tokens := .num 0, prompt_tokens_details := none,
                 completion_tokens_details := none },
      tool_results := none }
    rfl rfl rfl rfl rfl
    (by
      intro tc htc
      simp only [List.mem_cons, List.not_mem_nil, or_false] at htc
      rcases htc with rfl | rfl
      · exact ⟨.str "c1", rfl⟩
      · exact ⟨.str "c2", rfl⟩)
    rfl rfl).1
  exact h

/-! ## Lemmas on the order-placement embedding -/

theorem findProducto_map (ps : List Producto) (f : Producto → Producto)
    (hf : ∀ p, (f p).id = p.id) (x : Nat) :
    findProducto (ps.map f) x = (findProducto ps x).map f := by
  induction ps with
  | nil => rfl
  | cons p t ih =>
    unfold findProducto at ih ⊢
    rw [List.map_cons, List.find?_cons, List.find?_cons, hf p]
    cases hp : (p.id == x) with
    | true => rfl
    | false => exact ih

theorem findProducto_updateStock (ps : List Producto) (pid : Nat) (c : Int)
    (x : Nat) :
    findProducto (updateStock ps pid c) x =
      (findProducto ps x).map fun p =>
        if p.id == pid then { p with stock := p.stock - c } else p :=
  findProducto_map ps _ (fun p => by split <;> rfl) x

theorem findProducto_id (ps : List Producto) (x : Nat) (p : Producto)
    (h : findProducto ps x = some p) : p.id = x := by
  have hx := List.find?_some h
  simpa using hx

theorem precioOf_updateStock (ps : List Producto) (pid : Nat) (c : Int)
    (x : Nat) : precioOf (updateStock ps pid c) x = precioOf ps x := by
  unfold precioOf
  rw [findProducto_updateStock]
  cases findProducto ps x with
  | none => rfl
  | some p =>
    dsimp only [Option.map_some']
    split <;> rfl

theorem stockRefines_refl (ps : List Producto) : StockRefines ps ps :=
  fun _ => ⟨Iff.rfl, fun p hp => ⟨p, hp, rfl, le_refl _⟩⟩

theorem stockRefines_updateStock (cur base : List Producto) (pid : Nat)
    (c : Int) (hc : 0 ≤ c) (h : StockRefines cur base) :
    StockRefines (updateStock cur pid c) base := by
  intro x
  obtain ⟨hiff, hsome⟩ := h x
  constructor
  · rw [findProducto_updateStock]
    rw [← hiff]
    cases findProducto cur x <;> simp
  · intro p hp
    rw [findProducto_updateStock] at hp
    cases hcur : findProducto cur x with
    | none => rw [hcur] at hp; exact (Option.noConfusion hp)
    | some p0 =>
      rw [hcur] at hp
      dsimp only [Option.map_some'] at hp
      injection hp with hp
      obtain ⟨q, hq, hprecio, hstock⟩ := hsome p0 hcur
      refine ⟨q, hq, ?_, ?_⟩
      · rw [← hp]
        split <;> exact hprecio
      · rw [← hp]
        split
        · dsimp only
          omega
        · exact hstock

theorem verify_items_fail (items : List Item) :
    ∀ (st : PedidosDB) (total : Int) (base : List Producto),
      StockRefines st.productos base →
      (∀ it ∈ items, 0 < it.cantidad) →
      (∃ it ∈ items, item_bad base it = true) →
      ∃ msg, verify_items st items total = .error (.validationError msg) := by
  induction items with
  | nil =>
    rintro st total base _ _ ⟨it, hmem, _⟩
    exact absurd hmem (List.not_mem_nil it)
  | cons it rest ih =>
    rintro st total base href hpos hbad
    unfold verify_items
    cases hf : findProducto st.productos it.producto_id with
    | none => exact ⟨_, rfl⟩
    | some producto =>
      dsimp only
      by_cases hlt : producto.stock < it.cantidad
      · rw [if_pos hlt]
        exact ⟨_, rfl⟩
      · rw [if_neg hlt]
        obtain ⟨itb, hmemb, hbadb⟩ := hbad
        rcases List.mem_cons.mp hmemb with rfl | hmemb2
        · exfalso
          unfold item_bad at hbadb
          cases hb : findProducto base itb.producto_id with
          | none =>
            rw [(href itb.producto_id).1.mpr hb] at hf
            exact (Option.noConfusion hf)
          | some q =>
            rw [hb] at hbadb
            obtain ⟨q2, hq2, _, hstock⟩ := (href itb.producto_id).2 producto hf
            rw [hq2] at hb
            injection hb with hb
            subst hb
            simp only [decide_eq_true_eq] at hbadb
            omega
        · exact ih _ _ base
            (stockRefines_updateStock st.productos base it.producto_id it.cantidad
              (le_of_lt (hpos it (List.mem_cons_self it rest))) href)
            (fun it2 h2 => hpos it2 (List.mem_cons_of_mem it h2))
            ⟨itb, hmemb2, hbadb⟩

/-! ## C1 -/

/-- C1: a call to `crear_pedido` whose line items (each with a positive
quantity, per the data model) include one referring to an absent product or
requesting more than that product's current stock fails with a
`ValidationError` and persists nothing: the database state it returns is the
original one (the transaction is rolled back), so no order row, no detail
rows, and no stock change survive, including decrements performed for items
checked before the failing one. -/
theorem crear_pedido_unfulfillable_rolls_back (st : PedidosDB) (u : Int)
    (items : List Item)
    (hpos : ∀ it ∈ items, 0 < it.cantidad)
    (hbad : ∃ it ∈ items, item_bad st.productos it = true) :
    (crear_pedido st u items).1 = st ∧
    isValidationFailure (crear_pedido st u items).2 = true := by
  have hempty : items.isEmpty = false := by
    cases items with
    | nil =>
      obtain ⟨it, hmem, _⟩ := hbad
      exact absurd hmem (List.not_mem_nil it)
    | cons a l => rfl
  obtain ⟨msg, hv⟩ :=
    verify_items_fail items st 0 st.productos (stockRefines_refl _) hpos hbad
  unfold crear_pedido
  rw [if_neg (by simp [hempty]), hv]
  exact ⟨rfl, rfl⟩

/-- Witness for C1: one line item requesting 3 units of a product with
stock 2; the call fails validation and the state is unchanged. -/
theorem crear_pedido_unfulfillable_rolls_back_witness :
    (crear_pedido
      { productos := [{ id := 7, precio := 10, stock := 2 }], pedidos := [],
        detalles_pedido := [], next_pedido_id := 1 }
      1 [{ producto_id := 7, cantidad := 3 }]).1 =
      { productos := [{ id := 7, precio := 10, stock := 2 }], pedidos := [],
        detalles_pedido := [], next_pedido_id := 1 } ∧
    isValidationFailure (crear_pedido
      { productos := [{ id := 7, precio := 10, stock := 2 }], pedidos := [],
        detalles_pedido := [], next_pedido_id := 1 }
      1 [{ producto_id := 7, cantidad := 3 }]).2 = true :=
  crear_pedido_unfulfillable_rolls_back
    { productos := [{ id := 7, precio := 10, stock := 2 }], pedidos := [],
      detalles_pedido := [], next_pedido_id := 1 }
    1 [{ producto_id := 7, cantidad := 3 }] (by decide) (by decide)

/-! ## C2 -/

theorem totalRequested_cons (it : Item) (rest : List Item) (pid : Nat) :
    totalRequested (it :: rest) pid =
      (if it.producto_id == pid then it.cantidad else 0) + totalRequested rest pid := by
  unfold totalRequested
  rw [List.filter_cons]
  split
  · rw [List.map_cons, List.sum_cons]
  · rw [zero_add]

theorem totalRequested_nonneg (items : List Item) (pid : Nat)
    (hpos : ∀ it ∈ items, 0 < it.cantidad) : 0 ≤ totalRequested items pid := by
  unfold totalRequested
  apply List.sum_nonneg
  intro x hx
  simp only [List.mem_map] at hx
  obtain ⟨it, hit, rfl⟩ := hx
  exact le_of_lt (hpos it (List.mem_of_mem_filter hit))

theorem verify_items_ok (items : List Item) : ∀ (st : PedidosDB) (acc : Int),
    (∀ it ∈ items, 0 < it.cantidad) →
    (∀ it ∈ items, ∃ p, findProducto st.productos it.producto_id = some p ∧
        totalRequested items it.producto_id ≤ p.stock) →
    verify_items st items acc =
      .ok ({ st with productos := st.productos.map fun p =>
               { p with stock := p.stock - totalRequested items p.id } },
           acc + (items.map fun it =>
             precioOf st.productos it.producto_id * it.cantidad).sum) := by
  induction items with
  | nil =>
    intro st acc _ _
    have hmap : (st.productos.map fun p =>
        { p with stock := p.stock - totalRequested ([] : List Item) p.id }) =
        st.productos := by
      have hpt : ∀ p : Producto,
          ({ p with stock := p.stock - totalRequested ([] : List Item) p.id }) = p := by
        intro p
        show ({ p with stock := p.stock - 0 }) = p
        rw [Int.sub_zero]
      rw [List.map_congr_left fun a _ => hpt a, List.map_id']
    rw [hmap]
    show Except.ok (st, acc) = _
    rw [List.map_nil, List.sum_nil, Int.add_zero]
  | cons it rest ih =>
    intro st acc hpos hsuff
    obtain ⟨p, hfp, hstock⟩ := hsuff it (List.mem_cons_self it rest)
    have hposrest : ∀ it2 ∈ rest, 0 < it2.cantidad :=
      fun it2 h2 => hpos it2 (List.mem_cons_of_mem it h2)
    have htr_nonneg := totalRequested_nonneg rest it.producto_id hposrest
    have hstock2 : it.cantidad + totalRequested rest it.producto_id ≤ p.stock := by
      rw [totalRequested_cons] at hstock
      simpa using hstock
    have hnotlt : ¬ (p.stock < it.cantidad) := by omega
    unfold verify_items
    rw [hfp]
    dsimp only
    rw [if_neg hnotlt]
    have hsuffrest : ∀ it2 ∈ rest,
        ∃ q, findProducto
            (updateStock st.productos it.producto_id it.cantidad)
            it2.producto_id = some q ∧
          totalRequested rest it2.producto_id ≤ q.stock := by
      intro it2 h2
      obtain ⟨q, hq, hqs⟩ := hsuff it2 (List.mem_cons_of_mem it h2)
      have hqid : q.id = it2.producto_id := findProducto_id _ _ _ hq
      rw [totalRequested_cons] at hqs
      refine ⟨if q.id == it.producto_id
              then { q with stock := q.stock - it.cantidad } else q, ?_, ?_⟩
      · rw [findProducto_updateStock, hq]
        rfl
      · by_cases hsame : (q.id == it.producto_id) = true
        · rw [if_pos hsame]
          have : it.producto_id = it2.producto_id := by
            have := eq_of_beq hsame
            omega
          rw [if_pos (by simpa [beq_iff_eq] using this)] at hqs
          dsimp only
          omega
        · rw [if_neg hsame]
          have hne2 : ¬ (it.producto_id == it2.producto_id) = true := by
            intro hcon
            exact hsame (by simp [beq_iff_eq, hqid, eq_of_beq hcon])
          rw [if_neg hne2, zero_add] at hqs
          exact hqs
    have hIH := ih
      { st with productos := updateStock st.productos it.producto_id it.cantidad }
      (acc + p.precio * it.cantidad) hposrest hsuffrest
    rw [hIH]
    have hE1 : ((updateStock st.productos it.producto_id it.cantidad).map fun q =>
        { q with stock := q.stock - totalRequested rest q.id }) =
        st.productos.map fun q =>
          { q with stock := q.stock - totalRequested (it :: rest) q.id } := by
      unfold updateStock
      rw [List.map_map]
      apply List.map_congr_left
      intro q _
      show ({ (if q.id == it.producto_id
               then { q with stock := q.stock - it.cantidad } else q) with
              stock := (if q.id == it.producto_id
                        then { q with stock := q.stock - it.cantidad } else q).stock -
                totalRequested rest (if q.id == it.producto_id
                  then { q with stock := q.stock - it.cantidad } else q).id }) = _
      by_cases hsame : (q.id == it.producto_id) = true
      · rw [if_pos hsame]
        rw [totalRequested_cons]
        have hqid : (it.producto_id == q.id) = true := by
          simp [beq_iff_eq, eq_of_beq hsame]
        rw [if_pos hqid]
        dsimp only
        have : q.stock - it.cantidad - totalRequested rest q.id =
            q.stock - (it.cantidad + totalRequested rest q.id) := by omega
        rw [this]
      · rw [if_neg hsame]
        rw [totalRequested_cons]
        have hqid : ¬ (it.producto_id == q.id) = true := by
          intro hcon
          exact hsame (by simp [beq_iff_eq, eq_of_beq hcon])
        rw [if_neg hqid, zero_add]
    have hE2 : ∀ it2 : Item,
        precioOf (updateStock st.productos it.producto_id it.cantidad)
          it2.producto_id * it2.cantidad =
        precioOf st.productos it2.producto_id * it2.cantidad := by
      intro it2
      rw [precioOf_updateStock]
    have hprecio : p.precio = precioOf st.productos it.producto_id := by
      unfold precioOf
      rw [hfp]
    show Except.ok _ = Except.ok _
    rw [hE1]
    rw [List.map_congr_left fun it2 _ => hE2 it2]
    rw [List.map_cons, List.sum_cons, hprecio, add_assoc]

theorem insert_detalles_appends (items : List Item) : ∀ (st : PedidosDB) (pid : Nat),
    (∀ it ∈ items, (findProducto st.productos it.producto_id).isSome) →
    insert_detalles pid st items =
      { st with detalles_pedido := st.detalles_pedido ++
          items.map fun it =>
            { pedido_id := pid, producto_id := it.producto_id,
              cantidad := it.cantidad,
              precio_unitario := precioOf st.productos it.producto_id,
              subtotal := precioOf st.productos it.producto_id * it.cantidad } } := by
  induction items with
  | nil =>
    intro st pid _
    show st = _
    rw [List.map_nil, List.append_nil]
  | cons it rest ih =>
    intro st pid hall
    obtain ⟨p, hp⟩ := Option.isSome_iff_exists.mp (hall it (List.mem_cons_self it rest))
    unfold insert_detalles
    rw [hp]
    try dsimp only
    have hrest := ih
      { st with detalles_pedido := st.detalles_pedido ++
          [{ pedido_id := pid, producto_id := it.producto_id,
             cantidad := it.cantidad, precio_unitario := p.precio,
             subtotal := p.precio * it.cantidad }] }
      pid (fun it2 h2 => hall it2 (List.mem_cons_of_mem it h2))
    dsimp only at hrest
    rw [hrest]
    have hprecio : precioOf st.productos it.producto_id = p.precio := by
      unfold precioOf
      rw [hp]
    rw [List.map_cons]
    try dsimp only
    rw [hprecio, List.append_assoc, List.singleton_append]

/-- C2 (counterexample to the claim as stated): two line items for the same
product 1 (price 10, stock 3), each requesting 2 units.  Every line item's
product exists and has stock (3) at least the requested quantity (2), and all
quantities are positive, yet `crear_pedido` persists nothing and fails with a
`ValidationError`: the sequential scan decrements stock to 1 before checking
the second item.  Per-item stock sufficiency is not enough when a batch
repeats a product. -/
theorem crear_pedido_per_item_stock_cex :
    (([{ producto_id := 1, cantidad := 2 }, { producto_id := 1, cantidad := 2 }] :
        List Item).all fun it =>
      !item_bad [{ id := 1, precio := 10, stock := 3 }] it) = true ∧
    (crear_pedido
      { productos := [{ id := 1, precio := 10, stock := 3 }], pedidos := [],
        detalles_pedido := [], next_pedido_id := 1 }
      1 [{ producto_id := 1, cantidad := 2 }, { producto_id := 1, cantidad := 2 }]).1 =
      { productos := [{ id := 1, precio := 10, stock := 3 }], pedidos := [],
        detalles_pedido := [], next_pedido_id := 1 } ∧
    isValidationFailure (crear_pedido
      { productos := [{ id := 1, precio := 10, stock := 3 }], pedidos := [],
        detalles_pedido := [], next_pedido_id := 1 }
      1 [{ producto_id := 1, cantidad := 2 },
         { producto_id := 1, cantidad := 2 }]).2 = true :=
  ⟨by decide, by decide, by decide⟩

/-- C2 (amended): for every non-empty sequence of line items (each with a
positive quantity) in which every product exists and every product's stock
covers the total quantity requested for it across the whole batch,
`crear_pedido` persists exactly one order row with estado `pendiente` (the
spec's "pending") and the accumulated total, exactly one detail row per line
item in order referencing the new order id and priced at order time,
decrements each product's stock by exactly the total quantity requested for
it, and returns the new order id together with a total equal to the sum over
line items of price times quantity (prices are never modified inside the
transaction, so order-time and decrement-time prices coincide). -/
theorem crear_pedido_success (st : PedidosDB) (u : Int) (items : List Item)
    (hne : items ≠ [])
    (hpos : ∀ it ∈ items, 0 < it.cantidad)
    (hsuff : ∀ it ∈ items, ∃ p,
      findProducto st.productos it.producto_id = some p ∧
      totalRequested items it.producto_id ≤ p.stock) :
    crear_pedido st u items =
      ({ productos := specDecrement st items,
         pedidos := st.pedidos ++
           [{ id := st.next_pedido_id, usuario_id := u,
              total := specTotal st items, estado := "pendiente" }],
         detalles_pedido := st.detalles_pedido ++
           specDetalles st st.next_pedido_id items,
         next_pedido_id := st.next_pedido_id + 1 },
       .ok { status := "success", message := "Pedido creado exitosamente",
             pedido_id := st.next_pedido_id, total := specTotal st items }) := by
  have hempty : items.isEmpty = false := by
    cases items with
    | nil => exact absurd rfl hne
    | cons a l => rfl
  have hv := verify_items_ok items st 0 hpos hsuff
  unfold crear_pedido
  rw [if_neg (by simp [hempty]), hv]
  dsimp only
  have hsome : ∀ it ∈ items,
      (findProducto (st.productos.map fun p =>
        { p with stock := p.stock - totalRequested items p.id })
        it.producto_id).isSome := by
    intro it hmem
    obtain ⟨p, hp, _⟩ := hsuff it hmem
    rw [findProducto_map st.productos
      (fun p => { p with stock := p.stock - totalRequested items p.id })
      (fun q => rfl), hp]
    rfl
  have hins := insert_detalles_appends items
    { st with
      productos := st.productos.map fun p =>
        { p with stock := p.stock - totalRequested items p.id },
      pedidos := st.pedidos ++
        [{ id := st.next_pedido_id, usuario_id := u,
           total := 0 + (items.map fun it =>
             precioOf st.productos it.producto_id * it.cantidad).sum,
           estado := "pendiente" }],
      next_pedido_id := st.next_pedido_id + 1 }
    st.next_pedido_id hsome
  rw [hins]
  have hprecio : ∀ x, precioOf (st.productos.map fun p =>
      { p with stock := p.stock - totalRequested items p.id }) x =
      precioOf st.productos x := by
    intro x
    unfold precioOf
    rw [findProducto_map st.productos
      (fun p => { p with stock := p.stock - totalRequested items p.id })
      (fun q => rfl)]
    cases findProducto st.productos x with
    | none => rfl
    | some p => rfl
  unfold specDecrement specTotal specDetalles
  simp only [Prod.mk.injEq, PedidosDB.mk.injEq, Pedido.mk.injEq,
    Except.ok.injEq, CrearPedidoResult.mk.injEq, Int.zero_add, hprecio,
    and_true, true_and]

/-- Witness for C2 (amended): one line item for product 7 (price 10,
stock 5) requesting 3 units; one order row, one detail row, stock 5 to 2,
total 30. -/
theorem crear_pedido_success_witness :
    crear_pedido
      { productos := [{ id := 7, precio := 10, stock := 5 }], pedidos := [],
        detalles_pedido := [], next_pedido_id := 1 }
      1 [{ producto_id := 7, cantidad := 3 }] =
      ({ productos := [{ id := 7, precio := 10, stock := 2 }],
         pedidos := [{ id := 1, usuario_id := 1, total := 30,
                       estado := "pendiente" }],
         detalles_pedido := [{ pedido_id := 1, producto_id := 7,
                               cantidad := 3, precio_unitario := 10,
                               subtotal := 30 }],
         next_pedido_id := 2 },
       .ok { status := "success", message := "Pedido creado exitosamente",
             pedido_id := 1, total := 30 }) := by
  have h := crear_pedido_success
    { productos := [{ id := 7, precio := 10, stock := 5 }], pedidos := [],
      detalles_pedido := [], next_pedido_id := 1 }
    1 [{ producto_id := 7, cantidad := 3 }]
    (by decide) (by decide)
    (by
      intro it hit
      simp only [List.mem_cons, List.not_mem_nil, or_false] at hit
      subst hit
      exact ⟨{ id := 7, precio := 10, stock := 5 }, rfl, by decide⟩)
  exact h

end ApiRestIA
